import Mathlib

/-!
Verification of the napari-imagej bridge core.

This file gives a shallow embedding of the type-resolution, function-synthesis,
shape-codec and gateway-initialization code of the repository, and proves or
refutes the frozen claims about it.

Conventions of the embedding:
* Java types and Python types are abstract type parameters `J` and `P`
  (instantiated with `Nat` in concrete witnesses).
* Machinery of the hosted runtime (class assignability, conversion support,
  module execution) is passed in as explicit function parameters, since the
  source queries it through the gateway.
* Fallible Python code is modelled with `Option`/`Except`: an uncaught Python
  exception is an `Except.error`, an expression that would raise inside an
  observed spot (e.g. `None - array`) is modelled at that spot.
* Shape coordinates are rationals: the geometry in scope performs comparisons,
  subtraction, halving and exact equality tests on small values, for which
  IEEE double arithmetic is exact, and `np.linalg.norm` comparisons are
  replaced by comparisons of squared norms (the square root is monotone).
-/

namespace NapariImagej

/-! ## scyjava priorities

Numeric levels from `scyjava.Priority` used by the registration decorators. -/

namespace Priority

def VERY_HIGH : Int := 10000

def HIGH : Int := 100

def NORMAL : Int := 0

def LOW : Int := -100

end Priority

/-! ## Module items (`org.scijava.module.ModuleItem`)

One input or output slot of an invocable unit: its declared Java type and
its direction flags, mirroring `item.getType()`, `item.isInput()`,
`item.isOutput()`. -/

structure ModuleItem (J : Type) where
  javaType : J
  isInput : Bool
  isOutput : Bool
deriving DecidableEq

/-! ## Type resolver (`src/napari_imagej/types/type_conversions.py`)

The resolution context groups the data the resolver reads:
`placeholders` models the table built by `type_placeholders()` and
`ptypes` the `(java_type, python_type)` equivalence table of
`napari_imagej.types.mappings.ptypes()` (both tables live outside the
resolver and are parameters here); `isAssignable` models
`Types.raw(a).isAssignableFrom(Types.raw(b))` and `canConvert` models
`ij().convert().supports(a, b)`. -/

structure ResolutionContext (J P : Type) where
  placeholders : List (J × P)
  ptypes : List (J × P)
  isAssignable : J → J → Bool
  canConvert : J → J → Bool

/-- Embedding of a `for jtype, ptype in pairs: if pred(jtype): return ptype`
loop: the Python type of the first pair whose Java type passes the test. -/
def firstMatch {J P : Type} (pred : J → Bool) : List (J × P) → Option P
  | [] => none
  | (jtype, ptype) :: rest => if pred jtype then some ptype else firstMatch pred rest

/-- Embedding of `_checkerUsingFunc`. Case 1 (pure input) scans the table
forward testing `func(jtype, java_type)`; case 2 (pure output) scans the
reversed table testing `func(java_type, jtype)`; case 3 (both) scans forward
requiring both directions; otherwise `None`. -/
def _checkerUsingFunc {J P : Type} (type_pairs : List (J × P)) (func : J → J → Bool)
    (item : ModuleItem J) : Option P :=
  let java_type := item.javaType
  if item.isInput && !item.isOutput then
    firstMatch (fun jtype => func jtype java_type) type_pairs
  else if item.isOutput && !item.isInput then
    firstMatch (fun jtype => func java_type jtype) type_pairs.reverse
  else if item.isInput && item.isOutput then
    firstMatch (fun jtype => func java_type jtype && func jtype java_type) type_pairs
  else
    none

/-- Embedding of `placeholder_converter`: for pure inputs only, look the
declared type up in the placeholder table (`dict.get(java_type, None)`). -/
def placeholder_converter {J P : Type} [DecidableEq J] (ctx : ResolutionContext J P)
    (item : ModuleItem J) : Option P :=
  if item.isInput && !item.isOutput then
    ctx.placeholders.lookup item.javaType
  else
    none

/-- Embedding of `isAssignableChecker`: `_checkerUsingFunc` with raw-class
assignability. -/
def isAssignableChecker {J P : Type} (ctx : ResolutionContext J P)
    (item : ModuleItem J) : Option P :=
  _checkerUsingFunc ctx.ptypes ctx.isAssignable item

/-- Embedding of `canConvertChecker`: `_checkerUsingFunc` with the gateway's
conversion-support query. -/
def canConvertChecker {J P : Type} (ctx : ResolutionContext J P)
    (item : ModuleItem J) : Option P :=
  _checkerUsingFunc ctx.ptypes ctx.canConvert item

/-- Identities of the three functions decorated with `@module_item_converter`. -/
inductive ConverterId where
  | placeholder_converter
  | isAssignableChecker
  | canConvertChecker
deriving DecidableEq

/-- The `_MODULE_ITEM_CONVERTERS` list as built by executing the decorators in
file order: `placeholder_converter` at `Priority.HIGH` (line 70),
`isAssignableChecker` with the decorator's default `Priority.NORMAL`
(line 135), `canConvertChecker` at `Priority.LOW` (line 150). -/
def MODULE_ITEM_CONVERTERS : List (ConverterId × Int) :=
  [(ConverterId.placeholder_converter, Priority.HIGH),
   (ConverterId.isAssignableChecker, Priority.NORMAL),
   (ConverterId.canConvertChecker, Priority.LOW)]

/-- Stable insertion (descending by priority): an element is placed after every
earlier element of strictly higher priority and before the rest, matching the
stability guarantee of Python's `sorted(..., reverse=True, key=...)`. -/
def insertByPriorityDesc {α : Type} (x : α × Int) : List (α × Int) → List (α × Int)
  | [] => [x]
  | y :: ys => if x.2 < y.2 then y :: insertByPriorityDesc x ys else x :: y :: ys

/-- Stable sort, descending by priority. -/
def sortByPriorityDesc {α : Type} : List (α × Int) → List (α × Int)
  | [] => []
  | x :: xs => insertByPriorityDesc x (sortByPriorityDesc xs)

/-- The converter order used by `python_type_of`:
`sorted(_MODULE_ITEM_CONVERTERS, reverse=True, key=lambda x: x[1])`. -/
def sortedConverters : List (ConverterId × Int) :=
  sortByPriorityDesc MODULE_ITEM_CONVERTERS

/-- Dispatch a converter identity to its embedded function. -/
def runConverter {J P : Type} [DecidableEq J] (ctx : ResolutionContext J P) :
    ConverterId → ModuleItem J → Option P
  | ConverterId.placeholder_converter => placeholder_converter ctx
  | ConverterId.isAssignableChecker => isAssignableChecker ctx
  | ConverterId.canConvertChecker => canConvertChecker ctx

/-- The loop body of `python_type_of`: run each converter in the given order
and return the first non-`None` result. -/
def python_type_of_loop {J P : Type} [DecidableEq J] (ctx : ResolutionContext J P)
    (item : ModuleItem J) : List (ConverterId × Int) → Option P
  | [] => none
  | c :: rest =>
    match runConverter ctx c.1 item with
    | some p => some p
    | none => python_type_of_loop ctx item rest

/-- Embedding of `python_type_of`: try the converters sorted by priority
descending; if none matches, raise `ValueError` (modelled as `Except.error`). -/
def python_type_of {J P : Type} [DecidableEq J] (ctx : ResolutionContext J P)
    (item : ModuleItem J) : Except String P :=
  match python_type_of_loop ctx item sortedConverters with
  | some p => Except.ok p
  | none => Except.error "Unsupported Java Type"

/-! ## Function synthesizer (`src/napari_imagej/_function.py`)

This module carries its own resolver `_ptype` over the module-level `_ptypes`
table: a first pass using `jtype.class_.isAssignableFrom(java_type)`, then a
fallback pass using `ij.convert().supports(java_type, jtype)`, then
`ValueError`. The context groups the table and the two gateway queries. -/

structure FunctionContext (J P : Type) where
  ptypes : List (J × P)
  isAssignableFrom : J → J → Bool
  supports : J → J → Bool

/-- Embedding of `_ptype`: first `_ptypes` pass with assignability, second pass
with conversion support, otherwise `raise ValueError`. -/
def _ptype {J P : Type} (ctx : FunctionContext J P) (java_type : J) : Except String P :=
  match firstMatch (fun jtype => ctx.isAssignableFrom jtype java_type) ctx.ptypes with
  | some ptype => Except.ok ptype
  | none =>
    match firstMatch (fun jtype => ctx.supports java_type jtype) ctx.ptypes with
    | some ptype => Except.ok ptype
    | none => Except.error "Unsupported Java type"

/-- Reflected metadata of one invocable unit (`org.scijava.module.ModuleInfo`):
its identifier, menu path (`None` or a list of path components), and named,
typed inputs and outputs in declaration order. -/
structure ModuleInfo (J : Type) where
  identifier : String
  menuPath : Option (List String)
  inputs : List (String × J)
  outputs : List (String × J)

/-- The return annotation written into the synthesized signature: the Python
value `None`, a resolved Python type, or the aggregate `dict` type. -/
inductive ReturnAnn (P : Type) where
  | noneType
  | single (p : P)
  | dictType
deriving DecidableEq

/-- Embedding of `_return_type`: `None` for zero outputs, the resolved type of
the single output for one, `dict` otherwise. -/
def _return_type {J P : Type} (ctx : FunctionContext J P) (info : ModuleInfo J) :
    Except String (ReturnAnn P) :=
  match info.outputs.map Prod.snd with
  | [] => Except.ok ReturnAnn.noneType
  | [t] => (_ptype ctx t).map ReturnAnn.single
  | _ => Except.ok ReturnAnn.dictType

/-- Embedding of `_usable`: the menu path is non-`None` and non-empty. -/
def _usable {J : Type} (info : ModuleInfo J) : Bool :=
  match info.menuPath with
  | none => false
  | some path => decide (0 < path.length)

/-- A left-to-right, fail-fast effectful map, mirroring how a Python list or
dict comprehension propagates the first exception raised by an element. -/
def exceptMapList {α β : Type} (f : α → Except String β) : List α → Except String (List β)
  | [] => Except.ok []
  | x :: xs =>
    match f x with
    | Except.error e => Except.error e
    | Except.ok y =>
      match exceptMapList f xs with
      | Except.error e => Except.error e
      | Except.ok ys => Except.ok (y :: ys)

/-- The menu string `" > ".join(str(p) for p in info.getMenuPath())`. -/
def menuString {J : Type} (info : ModuleInfo J) : String :=
  String.intercalate " > " (info.menuPath.getD [])

/-- The function name `re.sub('[^a-zA-Z0-9_]', '_', menu_string)`: every
character outside `[a-zA-Z0-9_]` is replaced by an underscore. -/
def pythonFunctionName (menu_string : String) : String :=
  String.mk (menu_string.data.map (fun c => if c.isAlphanum || c == '_' then c else '_'))

/-- The result of one invocation of a synthesized callable: either the bare
single output value or the full name-to-value output mapping. -/
inductive RunResult (B : Type) where
  | single (v : B)
  | mapping (m : List (String × B))
deriving DecidableEq

/-- The marshalled outputs of one module run inside `run_module`: keyword
arguments are converted to Java (`ij.py.jargs`), the module-execution facility
is invoked and awaited (`ij.module().run(...).get()`), and each entry of the
retrieved output map is converted back (`ij.py.from_java(m.getOutputs())`). -/
def marshalledOutputs {A B : Type} (execute : List (String × A) → List (String × A))
    (to_java : B → A) (from_java : A → B) (kwargs : List (String × B)) :
    List (String × B) :=
  let jargs := kwargs.map (fun kv => (kv.1, to_java kv.2))
  let moduleOutputs := execute jargs
  moduleOutputs.map (fun kv => (kv.1, from_java kv.2))

/-- Embedding of `run_module`'s result selection:
`outputs.popitem()[1] if len(outputs) == 1 else outputs` — the bare value of
the unique entry of a one-entry map, the full mapping otherwise. -/
def run_module {A B : Type} (execute : List (String × A) → List (String × A))
    (to_java : B → A) (from_java : A → B) (kwargs : List (String × B)) : RunResult B :=
  match marshalledOutputs execute to_java from_java kwargs with
  | [kv] => RunResult.single kv.2
  | outputs => RunResult.mapping outputs

/-- The synthesized callable wrapper produced by `_functionify`: its generated
name, the type hints attached as annotations metadata (one per input, plus the
`return` hint), and whether the `try`-guarded signature rewrite succeeded. -/
structure SynthFn (P : Type) where
  name : String
  typeHints : List (String × P)
  returnHint : ReturnAnn P
  signatureSet : Bool
deriving DecidableEq

/-- Embedding of `_functionify`. The signature rewrite sits in a
`try/except` that swallows resolution failures (recorded in `signatureSet`);
the `type_hints` dict comprehension and the `return` hint are built outside
any handler, so a `ValueError` from `_ptype` there propagates to the caller.
The `return` hint is the resolved type for exactly one output and `dict`
otherwise (including zero outputs). -/
def _functionify {J P : Type} (ctx : FunctionContext J P) (info : ModuleInfo J) :
    Except String (SynthFn P) :=
  let signatureOk :=
    (exceptMapList (fun i => _ptype ctx i.2) info.inputs).isOk
      && (_return_type ctx info).isOk
  match exceptMapList (fun i => (_ptype ctx i.2).map (fun p => (i.1, p))) info.inputs with
  | Except.error e => Except.error e
  | Except.ok type_hints =>
    match
      (match info.outputs.map Prod.snd with
       | [t] => (_ptype ctx t).map ReturnAnn.single
       | _ => Except.ok ReturnAnn.dictType) with
    | Except.error e => Except.error e
    | Except.ok returnHint =>
      Except.ok
        { name := pythonFunctionName (menuString info)
          typeHints := type_hints
          returnHint := returnHint
          signatureSet := signatureOk }

/-- Stable ascending insertion by synthesized function name, matching
`sorted(functions, key=lambda f: f.__name__)`. -/
def insertByName {P : Type} (x : SynthFn P) : List (SynthFn P) → List (SynthFn P)
  | [] => [x]
  | y :: ys => if y.name < x.name then y :: insertByName x ys else x :: y :: ys

/-- Stable sort by synthesized function name. -/
def sortByName {P : Type} : List (SynthFn P) → List (SynthFn P)
  | [] => []
  | x :: xs => insertByName x (sortByName xs)

/-- Embedding of `napari_experimental_provide_function`: functionify every
usable module and sort the wrappers by name. The list comprehension has no
exception handler, so the first `ValueError` raised by `_functionify`
propagates to the caller. -/
def napari_experimental_provide_function {J P : Type} (ctx : FunctionContext J P)
    (modules : List (ModuleInfo J)) : Except String (List (SynthFn P)) :=
  match exceptMapList (_functionify ctx) (modules.filter (fun info => _usable info)) with
  | Except.error e => Except.error e
  | Except.ok functions => Except.ok (sortByName functions)

/-! ## Shape codec (`src/napari_imagej/_napari_converters.py`)

Vertices are 2-D points with rational coordinates (the rectangle code fixes
`origin = np.array([0, 0])`, so the B→A rectangle path is 2-D). Comparisons of
`np.linalg.norm` values are modelled by comparisons of squared norms: the
square root is strictly monotone, so `argmin`/`argmax` over the norms of
distinct squared values select the same index. -/

abbrev Pt : Type := ℚ × ℚ

/-- Componentwise subtraction of two points (`numpy` array subtraction). -/
def ptSub (p q : Pt) : Pt := (p.1 - q.1, p.2 - q.2)

/-- Componentwise absolute value (`np.abs`). -/
def ptAbs (p : Pt) : Pt := (|p.1|, |p.2|)

/-- Squared Euclidean norm, standing in for `np.linalg.norm` (see above). -/
def norm2 (p : Pt) : ℚ := p.1 * p.1 + p.2 * p.2

/-- Squared distance between two points (`np.linalg.norm(p - q)` squared). -/
def dist2 (p q : Pt) : ℚ := norm2 (ptSub p q)

/-- Columnwise mean of a point list (`np.mean(pts, axis=0)`). -/
def ptMean (pts : List Pt) : Pt :=
  ((pts.map Prod.fst).sum / (pts.length : ℚ), (pts.map Prod.snd).sum / (pts.length : ℚ))

/-- Select the element minimizing `f`, earliest index winning ties: the
composite `points[np.argmin([f(p) for p in points])]` (`np.argmin` returns the
first occurrence of the minimum, and the update below is on strict `<`). -/
def selectMinBy (f : Pt → ℚ) : List Pt → Pt → Pt
  | [], best => best
  | p :: rest, best => if f p < f best then selectMinBy f rest p else selectMinBy f rest best

/-- Select the element maximizing `f`, earliest index winning ties: the
composite `points[np.argmax([f(p) for p in points])]`. -/
def selectMaxBy (f : Pt → ℚ) : List Pt → Pt → Pt
  | [], best => best
  | p :: rest, best => if f p > f best then selectMaxBy f rest p else selectMaxBy f rest best

/-- A `net.imglib2.roi.geom.real` ellipsoid as held by
`ClosedWritableEllipsoid(center, radii)`. -/
structure Ellipsoid where
  center : Pt
  radii : Pt
deriving DecidableEq

/-- A line mask as held by `DefaultWritableLine(start, end)`. -/
structure LineMask where
  endpointOne : Pt
  endpointTwo : Pt
deriving DecidableEq

/-- A polyshape (`ClosedWritablePolygon2D` / `DefaultWritablePolyline`): the
ordered vertex list built from the `RealPoint`s handed to the constructor. -/
structure Polyshape where
  vertices : List Pt
deriving DecidableEq

/-- A `DefaultWritableRealPointCollection`: the ordered point list handed to
the constructor. -/
structure RealPointCollection where
  points : List Pt
deriving DecidableEq

/-- The mask produced by the B→A rectangle conversion: a `ClosedWritableBox`
over the min/max pair, or the `ClosedWritablePolygon2D` fallback. -/
inductive RectResult where
  | box (minCorner maxCorner : Pt)
  | polygon (shape : Polyshape)
deriving DecidableEq

/-- Embedding of `_polyshape_to_layer_data`: copy the mask's vertices, in
order, into the layer-data array. -/
def _polyshape_to_layer_data (mask : Polyshape) : List Pt :=
  mask.vertices

/-- Embedding of `_ellipse_data_to_mask`: center is the columnwise mean of the
data points, radii the absolute difference of the first point from the center;
`pts[0]` on empty data raises (`none`). -/
def _ellipse_data_to_mask : List Pt → Option Ellipsoid
  | [] => none
  | p0 :: rest =>
    let center := ptMean (p0 :: rest)
    some (Ellipsoid.mk center (ptAbs (ptSub p0 center)))

/-- Embedding of `_ellipse_mask_to_data`: a 2×D array holding the center row
then the semi-axis-length row. -/
def _ellipse_mask_to_data (mask : Ellipsoid) : List Pt :=
  [mask.center, mask.radii]

/-- The filter predicate inside `_is_axis_aligned`: a point differing from
both the min and the max corner (`np.array_equal` is exact equality). -/
def otherPred (minPt maxPt : Pt) (p2 : Pt) : Bool :=
  decide (p2 ≠ minPt) && decide (p2 ≠ maxPt)

/-- Embedding of `_is_axis_aligned`. `next(filter(...), None)` takes the first
point differing from both corners; when there is none, `other` is `None` and
`other - min` raises `TypeError`, modelled by `none`. Otherwise the result is
whether some coordinate of `other - min` is exactly zero. -/
def _is_axis_aligned (minPt maxPt : Pt) (points : List Pt) : Option Bool :=
  match points.find? (otherPred minPt maxPt) with
  | none => none
  | some other =>
    let min_diff := ptSub other minPt
    some (decide (min_diff.1 = 0) || decide (min_diff.2 = 0))

/-- Embedding of `_polygon_data_to_mask`: a `ClosedWritablePolygon2D` over the
`RealPoint`s of the data, in order. -/
def _polygon_data_to_mask (points : List Pt) : Polyshape :=
  Polyshape.mk points

/-- Embedding of `_polygon_mask_to_data` (delegates to
`_polyshape_to_layer_data`). -/
def _polygon_mask_to_data (mask : Polyshape) : List Pt :=
  _polyshape_to_layer_data mask

/-- The rectangle `min` corner: the point nearest the origin
(`points[np.argmin([norm(origin - pt) for pt in points])]`). -/
def rectMin : List Pt → Pt
  | [] => (0, 0)
  | p :: rest => selectMinBy (fun pt => dist2 (0, 0) pt) rest p

/-- The rectangle `max` corner: the point farthest from `min`
(`points[np.argmax([norm(min - pt) for pt in points])]`). -/
def rectMax (points : List Pt) : Pt :=
  match points with
  | [] => (0, 0)
  | p :: rest => selectMaxBy (fun pt => dist2 (rectMin points) pt) rest p

/-- Embedding of `_rectangle_data_to_mask`: compute the min and max corners,
then a `ClosedWritableBox` if `_is_axis_aligned`, the polygon fallback if not,
and the uncaught `TypeError` when `_is_axis_aligned` finds no other point.
`np.argmin` on empty data raises `ValueError`. -/
def _rectangle_data_to_mask (points : List Pt) : Except String RectResult :=
  match points with
  | [] => Except.error "ValueError"
  | _ :: _ =>
    match _is_axis_aligned (rectMin points) (rectMax points) points with
    | none => Except.error "TypeError"
    | some true => Except.ok (RectResult.box (rectMin points) (rectMax points))
    | some false => Except.ok (RectResult.polygon (_polygon_data_to_mask points))

/-- Embedding of `_line_data_to_mask`: `DefaultWritableLine(points[0],
points[1])`; indexing raises on fewer than two points. -/
def _line_data_to_mask : List Pt → Option LineMask
  | p0 :: p1 :: _ => some (LineMask.mk p0 p1)
  | _ => none

/-- Embedding of `_line_mask_to_data`: a 2×D array holding `endpointOne` then
`endpointTwo`. -/
def _line_mask_to_data (mask : LineMask) : List Pt :=
  [mask.endpointOne, mask.endpointTwo]

/-- Embedding of `_path_data_to_mask`: a `DefaultWritablePolyline` over the
data points, in order. -/
def _path_data_to_mask (points : List Pt) : Polyshape :=
  Polyshape.mk points

/-- Embedding of `_path_mask_to_data` (delegates to
`_polyshape_to_layer_data`). -/
def _path_mask_to_data (mask : Polyshape) : List Pt :=
  _polyshape_to_layer_data mask

/-- Embedding of `_points_to_realpointcollection`: a
`DefaultWritableRealPointCollection` over the layer's points, in order. -/
def _points_to_realpointcollection (points : List Pt) : RealPointCollection :=
  RealPointCollection.mk points

/-- Embedding of `_realpointcollection_to_points`: copy the collection's
points, in order, into the layer data. -/
def _realpointcollection_to_points (collection : RealPointCollection) : List Pt :=
  collection.points

/-- The axis-alignment classifier as the CLAIM words it (for the refinement
comparison only): axis-aligned iff AT LEAST ONE of the points differing from
both `min` and `max` differs from `min` by exactly zero in some coordinate
axis. The code instead consults only the first such point. -/
def claim_is_axis_aligned (minPt maxPt : Pt) (points : List Pt) : Bool :=
  points.any (fun p =>
    otherPred minPt maxPt p
      && (decide ((ptSub p minPt).1 = 0) || decide ((ptSub p minPt).2 = 0)))

/-! ## Gateway initialization (`src/napari_imagej/java.py`)

The module state is the global `_ij` (`Option G` for an abstract gateway
type `G`); the environment holds the outcomes of the external collaborators:
whether `imagej.gateway` already exists, what `imagej.init` would return (or
raise), and whether `_validate_imagej` passes. -/

structure IJEnv (G : Type) where
  alreadyGateway : Option G
  initResult : Except String G
  validationOk : Bool

/-- Which externally visible initialization actions a call of `init_ij` ran:
`install_converters()`, the `imagej.init(...)` launch, and
`_validate_imagej()`. -/
structure InitTrace where
  ranInstallConverters : Bool
  ranGatewayLaunch : Bool
  ranValidation : Bool
deriving DecidableEq

/-- The outcome of one `init_ij` call: its return value or raised exception,
the global `_ij` state afterwards, and the actions it ran. -/
structure InitOutcome (G : Type) where
  result : Except String G
  state : Option G
  trace : InitTrace

/-- Embedding of `init_ij`. With `_ij` already set it returns immediately.
Otherwise it installs the converters, adopts `imagej.gateway` or launches a
new gateway (a launch failure propagates with `_ij` still unset), assigns
`_ij`, and only then validates versions — a validation failure raises
`RuntimeError` but leaves `_ij` assigned. -/
def init_ij {G : Type} (env : IJEnv G) (s : Option G) : InitOutcome G :=
  match s with
  | some g => InitOutcome.mk (Except.ok g) (some g) (InitTrace.mk false false false)
  | none =>
    match env.alreadyGateway with
    | some g =>
      if env.validationOk then
        InitOutcome.mk (Except.ok g) (some g) (InitTrace.mk true false true)
      else
        InitOutcome.mk
          (Except.error "napari-imagej requires the following component versions")
          (some g) (InitTrace.mk true false true)
    | none =>
      match env.initResult with
      | Except.error e => InitOutcome.mk (Except.error e) none (InitTrace.mk true true false)
      | Except.ok g =>
        if env.validationOk then
          InitOutcome.mk (Except.ok g) (some g) (InitTrace.mk true true true)
        else
          InitOutcome.mk
            (Except.error "napari-imagej requires the following component versions")
            (some g) (InitTrace.mk true true true)

/-- Embedding of `ij`: raise unless `_ij` has been assigned. -/
def ij {G : Type} (s : Option G) : Except String G :=
  match s with
  | none =>
    Except.error "The ImageJ instance has not yet been initialized! Please run init_ij()"
  | some g => Except.ok g

/-! ## Concrete instances used by witnesses and counterexamples -/

/-- A function-synthesizer context with an empty equivalence table: no Java
type is resolvable. -/
def c2ctx : FunctionContext Nat Nat :=
  { ptypes := [], isAssignableFrom := fun _ _ => false, supports := fun _ _ => false }

/-- A usable unit (non-empty menu path) with one input of an unresolvable
type. -/
def c2info : ModuleInfo Nat :=
  { identifier := "bad-unit", menuPath := some ["Plugins", "Bad"],
    inputs := [("x", 0)], outputs := [] }

/-- A function-synthesizer context that resolves Java type `0` (to `42`) and
no other type. -/
def c2octx : FunctionContext Nat Nat :=
  { ptypes := [(0, 42)], isAssignableFrom := fun a b => a == b,
    supports := fun _ _ => false }

/-- A usable unit whose input type resolves but whose single output type `1`
does not. -/
def c2oinfo : ModuleInfo Nat :=
  { identifier := "bad-out-unit", menuPath := some ["Plugins", "BadOut"],
    inputs := [("x", 0)], outputs := [("out", 1)] }

/-- A usable unit all of whose item types resolve. -/
def c2okinfo : ModuleInfo Nat :=
  { identifier := "ok-unit", menuPath := some ["Ok"],
    inputs := [("x", 0)], outputs := [("out", 0)] }

/-- A unit without a menu path, filtered out by `_usable`. -/
def c2menuless : ModuleInfo Nat :=
  { identifier := "menuless", menuPath := none, inputs := [], outputs := [] }

/-- The wrapper `_functionify` synthesizes for `c2okinfo` under `c2octx`. -/
def c2okfn : SynthFn Nat :=
  { name := "Ok", typeHints := [("x", 42)],
    returnHint := ReturnAnn.single 42, signatureSet := true }

/-- An executor whose output map has exactly one entry. -/
def c6exec1 : List (String × Nat) → List (String × Nat) := fun _ => [("sum", 5)]

/-- An executor whose output map has two entries. -/
def c6exec2 : List (String × Nat) → List (String × Nat) :=
  fun _ => [("min", 1), ("max", 9)]

/-- Keyword arguments for the `run_module` witnesses. -/
def c6kwargs : List (String × Nat) := [("x", 2), ("y", 3)]

/-- A function-synthesizer context whose table resolves every type to `42`. -/
def c7ctx : FunctionContext Nat Nat :=
  { ptypes := [(0, 42)], isAssignableFrom := fun _ _ => true, supports := fun _ _ => true }

/-- A unit with zero outputs. -/
def c7info0 : ModuleInfo Nat :=
  { identifier := "zero-out", menuPath := some ["A"], inputs := [], outputs := [] }

/-- A unit with exactly one output. -/
def c7info1 : ModuleInfo Nat :=
  { identifier := "one-out", menuPath := some ["A"], inputs := [], outputs := [("out", 0)] }

/-- A unit with two outputs. -/
def c7info2 : ModuleInfo Nat :=
  { identifier := "two-out", menuPath := some ["A"],
    inputs := [], outputs := [("min", 0), ("max", 0)] }

/-- A resolution context with a two-pair equivalence table and equality as
both reachability relations. -/
def c8ctx : ResolutionContext Nat Nat :=
  { placeholders := [], ptypes := [(1, 10), (2, 20)],
    isAssignable := fun a b => a == b, canConvert := fun a b => a == b }

/-- A pure-output module item of declared type `2`. -/
def c8item : ModuleItem Nat :=
  { javaType := 2, isInput := false, isOutput := true }

/-- A pure-input module item of declared type `1`. -/
def c1item : ModuleItem Nat :=
  { javaType := 1, isInput := true, isOutput := false }

/-- Four corner points whose FIRST non-min/non-max point `(1, 2)` has no zero
coordinate difference from the min corner `(0, 0)`, while the SECOND,
`(0, 10)`, does. -/
def c3pts : List Pt := [(0, 0), (1, 2), (0, 10), (10, 10)]

/-- A four-point quadrilateral the code classifies as not axis-aligned. -/
def c3wpts : List Pt := [(0, 0), (3, 1), (1, 2), (4, 3)]

/-- The four corners of a genuinely rotated (non-axis-aligned) rectangle. -/
def c5pts : List Pt := [(1, 0), (3, 1), (2, 3), (0, 2)]

/-- Four identical corner points. -/
def c9pts : List Pt := [(2, 2), (2, 2), (2, 2), (2, 2)]

/-- An environment whose gateway launch succeeds (yielding gateway `7`) but
whose version validation fails. -/
def c10envC : IJEnv Nat :=
  { alreadyGateway := none, initResult := Except.ok 7, validationOk := false }

/-- An environment whose initialization fully succeeds with gateway `5`. -/
def c10envW : IJEnv Nat :=
  { alreadyGateway := none, initResult := Except.ok 5, validationOk := true }

/-! ## Helper lemmas -/

/-- The first-match loop over `(java, python)` pairs returns the Python type
of the first pair whose Java type satisfies the predicate. -/
theorem firstMatch_eq_find {J P : Type} (pred : J → Bool) (l : List (J × P)) :
    firstMatch pred l = (l.find? (fun jp => pred jp.1)).map Prod.snd := by
  induction l with
  | nil => rfl
  | cons hd tl ih =>
    rcases hd with ⟨j, p⟩
    by_cases h : pred j
    · simp [firstMatch, List.find?, h]
    · simp [firstMatch, List.find?, h, ih]

/-- If the fail-fast effectful map succeeds, every element succeeded. -/
theorem exceptMapList_ok_forall {α β : Type} (f : α → Except String β) (l : List α)
    (h : (exceptMapList f l).isOk = true) : ∀ x ∈ l, (f x).isOk = true := by
  induction l with
  | nil => intro x hx; simp at hx
  | cons hd tl ih =>
    intro x hx
    unfold exceptMapList at h
    cases hfx : f hd with
    | error e => rw [hfx] at h; simp [Except.isOk, Except.toBool] at h
    | ok y =>
      rw [hfx] at h
      cases hrest : exceptMapList f tl with
      | error e => rw [hrest] at h; simp [Except.isOk, Except.toBool] at h
      | ok ys =>
        rcases List.mem_cons.mp hx with rfl | hx2
        · rw [hfx]; rfl
        · exact ih (by rw [hrest]; rfl) x hx2

/-- When the fail-fast effectful map succeeds, it yields one result per
element. -/
theorem exceptMapList_ok_length {α β : Type} (f : α → Except String β) (l : List α)
    (ys : List β) (h : exceptMapList f l = Except.ok ys) : ys.length = l.length := by
  induction l generalizing ys with
  | nil =>
    unfold exceptMapList at h
    cases h
    rfl
  | cons hd tl ih =>
    unfold exceptMapList at h
    cases hfx : f hd with
    | error e => rw [hfx] at h; simp at h
    | ok y =>
      rw [hfx] at h
      cases hrest : exceptMapList f tl with
      | error e => rw [hrest] at h; simp at h
      | ok ys2 =>
        rw [hrest] at h
        simp at h
        rw [← h]
        simp [ih ys2 hrest]

/-- Name-ordered insertion grows a wrapper list by one. -/
theorem insertByName_length {P : Type} (x : SynthFn P) (l : List (SynthFn P)) :
    (insertByName x l).length = l.length + 1 := by
  induction l with
  | nil => rfl
  | cons y ys ih =>
    unfold insertByName
    split
    · simp [ih]
    · simp

/-- The name sort of `napari_experimental_provide_function` preserves length. -/
theorem sortByName_length {P : Type} (l : List (SynthFn P)) :
    (sortByName l).length = l.length := by
  induction l with
  | nil => rfl
  | cons x xs ih =>
    unfold sortByName
    rw [insertByName_length, ih]
    rfl

/-- An input item whose type does not resolve makes `_functionify` raise: the
`type_hints` comprehension calls `_ptype` outside any handler. -/
theorem functionify_fails_of_bad_input {J P : Type} (ctx : FunctionContext J P)
    (info : ModuleInfo J) (hbad : ∃ i ∈ info.inputs, (_ptype ctx i.2).isOk = false) :
    (_functionify ctx info).isOk = false := by
  rcases hbad with ⟨i, hi, hbadi⟩
  simp only [_functionify]
  cases hmap : exceptMapList (fun i => (_ptype ctx i.2).map (fun p => (i.1, p)))
      info.inputs with
  | error e => rfl
  | ok type_hints =>
    exfalso
    have hall := exceptMapList_ok_forall
      (fun i => (_ptype ctx i.2).map (fun p => (i.1, p))) info.inputs
      (by rw [hmap]; rfl) i hi
    cases hpt : _ptype ctx i.2 with
    | error e2 => simp [hpt, Except.map, Except.isOk, Except.toBool] at hall
    | ok p => rw [hpt] at hbadi; simp [Except.isOk, Except.toBool] at hbadi

/-- A single output item whose type does not resolve makes `_functionify`
raise: the `return` type hint calls `_ptype` outside any handler. -/
theorem functionify_fails_of_bad_single_output {J P : Type} (ctx : FunctionContext J P)
    (info : ModuleInfo J) (o : String × J) (ho : info.outputs = [o])
    (hbad : (_ptype ctx o.2).isOk = false) :
    (_functionify ctx info).isOk = false := by
  simp only [_functionify, ho]
  cases hmap : exceptMapList (fun i => (_ptype ctx i.2).map (fun p => (i.1, p)))
      info.inputs with
  | error e => rfl
  | ok type_hints =>
    cases hpt : _ptype ctx o.2 with
    | error e2 => simp [hpt, Except.map, Except.isOk, Except.toBool]
    | ok p => rw [hpt] at hbad; simp [Except.isOk, Except.toBool] at hbad

/-- A usable module whose `_functionify` raises makes the whole provider call
raise: the providing list comprehension has no exception handler. -/
theorem provide_function_error_of_mem {J P : Type} (ctx : FunctionContext J P)
    (modules : List (ModuleInfo J)) (info : ModuleInfo J)
    (hmem : info ∈ modules) (hu : _usable info = true)
    (hfn : (_functionify ctx info).isOk = false) :
    (napari_experimental_provide_function ctx modules).isOk = false := by
  have hmemf : info ∈ modules.filter (fun info => _usable info) :=
    List.mem_filter.mpr ⟨hmem, hu⟩
  simp only [napari_experimental_provide_function]
  cases hall : exceptMapList (_functionify ctx)
      (modules.filter (fun info => _usable info)) with
  | error e => rfl
  | ok fns =>
    exfalso
    have hok := exceptMapList_ok_forall (_functionify ctx)
      (modules.filter (fun info => _usable info)) (by rw [hall]; rfl) info hmemf
    rw [hok] at hfn
    exact Bool.noConfusion hfn

/-- The selected element of `selectMinBy` is the accumulator or a list
element, and its value is a lower bound for both. -/
theorem selectMinBy_spec (f : Pt → ℚ) (l : List Pt) :
    ∀ b : Pt, (selectMinBy f l b = b ∨ selectMinBy f l b ∈ l)
      ∧ f (selectMinBy f l b) ≤ f b
      ∧ ∀ p ∈ l, f (selectMinBy f l b) ≤ f p := by
  induction l with
  | nil =>
    intro b
    exact ⟨Or.inl rfl, le_refl _, by intro p hp; simp at hp⟩
  | cons hd tl ih =>
    intro b
    by_cases h : f hd < f b
    · have spec := ih hd
      simp only [selectMinBy, if_pos h]
      refine ⟨?_, ?_, ?_⟩
      · rcases spec.1 with he | hm
        · exact Or.inr (by rw [he]; exact List.mem_cons_self _ _)
        · exact Or.inr (List.mem_cons_of_mem _ hm)
      · exact le_trans spec.2.1 (le_of_lt h)
      · intro p hp
        rcases List.mem_cons.mp hp with rfl | hp2
        · exact spec.2.1
        · exact spec.2.2 p hp2
    · have spec := ih b
      simp only [selectMinBy, if_neg h]
      refine ⟨?_, spec.2.1, ?_⟩
      · rcases spec.1 with he | hm
        · exact Or.inl he
        · exact Or.inr (List.mem_cons_of_mem _ hm)
      · intro p hp
        rcases List.mem_cons.mp hp with rfl | hp2
        · exact le_trans spec.2.1 (le_of_not_lt h)
        · exact spec.2.2 p hp2

/-- The selected element of `selectMaxBy` is the accumulator or a list
element, and its value is an upper bound for both. -/
theorem selectMaxBy_spec (f : Pt → ℚ) (l : List Pt) :
    ∀ b : Pt, (selectMaxBy f l b = b ∨ selectMaxBy f l b ∈ l)
      ∧ f b ≤ f (selectMaxBy f l b)
      ∧ ∀ p ∈ l, f p ≤ f (selectMaxBy f l b) := by
  induction l with
  | nil =>
    intro b
    exact ⟨Or.inl rfl, le_refl _, by intro p hp; simp at hp⟩
  | cons hd tl ih =>
    intro b
    by_cases h : f hd > f b
    · have spec := ih hd
      simp only [selectMaxBy, if_pos h]
      refine ⟨?_, ?_, ?_⟩
      · rcases spec.1 with he | hm
        · exact Or.inr (by rw [he]; exact List.mem_cons_self _ _)
        · exact Or.inr (List.mem_cons_of_mem _ hm)
      · exact le_trans (le_of_lt h) spec.2.1
      · intro p hp
        rcases List.mem_cons.mp hp with rfl | hp2
        · exact spec.2.1
        · exact spec.2.2 p hp2
    · have spec := ih b
      simp only [selectMaxBy, if_neg h]
      refine ⟨?_, spec.2.1, ?_⟩
      · rcases spec.1 with he | hm
        · exact Or.inl he
        · exact Or.inr (List.mem_cons_of_mem _ hm)
      · intro p hp
        rcases List.mem_cons.mp hp with rfl | hp2
        · exact le_trans (le_of_not_lt h) spec.2.1
        · exact spec.2.2 p hp2

/-- The computed rectangle `min` corner is one of the input points. -/
theorem rectMin_mem (points : List Pt) (h : points ≠ []) : rectMin points ∈ points := by
  rcases points with _ | ⟨q, rest⟩
  · exact absurd rfl h
  · rcases (selectMinBy_spec (fun pt => dist2 (0, 0) pt) rest q).1 with he | hm
    · rw [rectMin, he]; exact List.mem_cons_self _ _
    · exact List.mem_cons_of_mem _ hm

/-- The computed rectangle `min` corner is nearest the origin. -/
theorem rectMin_nearest (points : List Pt) :
    ∀ p ∈ points, dist2 (0, 0) (rectMin points) ≤ dist2 (0, 0) p := by
  rcases points with _ | ⟨q, rest⟩
  · intro p hp; simp at hp
  · intro p hp
    rcases List.mem_cons.mp hp with rfl | hp2
    · exact (selectMinBy_spec (fun pt => dist2 (0, 0) pt) rest p).2.1
    · exact (selectMinBy_spec (fun pt => dist2 (0, 0) pt) rest q).2.2 p hp2

/-- The computed rectangle `max` corner is one of the input points. -/
theorem rectMax_mem (points : List Pt) (h : points ≠ []) : rectMax points ∈ points := by
  rcases points with _ | ⟨q, rest⟩
  · exact absurd rfl h
  · rcases (selectMaxBy_spec (fun pt => dist2 (rectMin (q :: rest)) pt) rest q).1 with he | hm
    · rw [rectMax, he]; exact List.mem_cons_self _ _
    · exact List.mem_cons_of_mem _ hm

/-- The computed rectangle `max` corner is farthest from the `min` corner. -/
theorem rectMax_farthest (points : List Pt) :
    ∀ p ∈ points, dist2 (rectMin points) p ≤ dist2 (rectMin points) (rectMax points) := by
  rcases points with _ | ⟨q, rest⟩
  · intro p hp; simp at hp
  · intro p hp
    rcases List.mem_cons.mp hp with rfl | hp2
    · exact (selectMaxBy_spec (fun pt => dist2 (rectMin (p :: rest)) pt) rest p).2.1
    · exact (selectMaxBy_spec (fun pt => dist2 (rectMin (q :: rest)) pt) rest q).2.2 p hp2

/-- On non-empty data, the rectangle conversion raises `TypeError` when the
axis-alignment test finds no other point. -/
theorem rect_eval_error (points : List Pt) (hne : points ≠ [])
    (h : _is_axis_aligned (rectMin points) (rectMax points) points = none) :
    _rectangle_data_to_mask points = Except.error "TypeError" := by
  rcases points with _ | ⟨q, rest⟩
  · exact absurd rfl hne
  · simp only [_rectangle_data_to_mask]
    rw [h]

/-- On non-empty data, the rectangle conversion returns the min/max box when
the axis-alignment test passes. -/
theorem rect_eval_box (points : List Pt) (hne : points ≠ [])
    (h : _is_axis_aligned (rectMin points) (rectMax points) points = some true) :
    _rectangle_data_to_mask points
      = Except.ok (RectResult.box (rectMin points) (rectMax points)) := by
  rcases points with _ | ⟨q, rest⟩
  · exact absurd rfl hne
  · simp only [_rectangle_data_to_mask]
    rw [h]

/-- On non-empty data, the rectangle conversion falls back to a polygon over
all vertices when the axis-alignment test fails. -/
theorem rect_eval_polygon (points : List Pt) (hne : points ≠ [])
    (h : _is_axis_aligned (rectMin points) (rectMax points) points = some false) :
    _rectangle_data_to_mask points
      = Except.ok (RectResult.polygon (Polyshape.mk points)) := by
  rcases points with _ | ⟨q, rest⟩
  · exact absurd rfl hne
  · simp only [_rectangle_data_to_mask]
    rw [h]
    rfl

/-! ## Claim C1 -/

/-- C1, counterexample: the claim says the structural-assignability checker is
registered at HIGH priority; in the code `isAssignableChecker` is registered by
the bare `@module_item_converter()` decorator, whose default priority is
`Priority.NORMAL`, not `Priority.HIGH`. -/
theorem C1_counterexample :
    MODULE_ITEM_CONVERTERS.lookup ConverterId.isAssignableChecker = some Priority.NORMAL
    ∧ Priority.NORMAL ≠ Priority.HIGH := by
  decide

/-- C1, amended: type resolution tries the structural-assignability checker,
registered at NORMAL priority, over all (java type, python type) pairs before
attempting the runtime-conversion-support checker, registered at LOW priority,
over any pair; the first checker that returns a match wins. Concretely, the
priority-descending converter order is placeholder (HIGH), assignability
(NORMAL), conversion support (LOW), and `python_type_of` is their first-match
chaining. -/
theorem C1_resolution_order {J P : Type} [DecidableEq J] (ctx : ResolutionContext J P)
    (item : ModuleItem J) :
    sortedConverters = [(ConverterId.placeholder_converter, Priority.HIGH),
      (ConverterId.isAssignableChecker, Priority.NORMAL),
      (ConverterId.canConvertChecker, Priority.LOW)]
    ∧ python_type_of ctx item =
      (match placeholder_converter ctx item with
       | some p => Except.ok p
       | none =>
         match isAssignableChecker ctx item with
         | some p => Except.ok p
         | none =>
           match canConvertChecker ctx item with
           | some p => Except.ok p
           | none => Except.error "Unsupported Java Type") := by
  have hs : sortedConverters = [(ConverterId.placeholder_converter, Priority.HIGH),
      (ConverterId.isAssignableChecker, Priority.NORMAL),
      (ConverterId.canConvertChecker, Priority.LOW)] := by decide
  refine ⟨hs, ?_⟩
  unfold python_type_of
  rw [hs]
  cases h1 : placeholder_converter ctx item with
  | some p => simp [python_type_of_loop, runConverter, h1]
  | none =>
    cases h2 : isAssignableChecker ctx item with
    | some p => simp [python_type_of_loop, runConverter, h1, h2]
    | none =>
      cases h3 : canConvertChecker ctx item with
      | some p => simp [python_type_of_loop, runConverter, h1, h2, h3]
      | none => simp [python_type_of_loop, runConverter, h1, h2, h3]


/-- C1, witness: the resolution order evaluated on a concrete pure-input item:
no placeholder is registered, so the assignability checker's match `10` wins
without consulting the conversion checker. -/
theorem C1_witness : python_type_of c8ctx c1item = Except.ok 10 := by
  rw [(C1_resolution_order c8ctx c1item).2]
  rfl

/-! ## Claim C8 -/

/-- C8: for a pure-output module item, each of the two checkers scans the
equivalence table in reverse order (most-specific pair first, since the table
is ordered least- to most-specific) and tests reachability in the reversed
direction — the declared type must reach the pair's Java type — returning the
Python type of the first pair that passes. -/
theorem C8_output_reverse_scan {J P : Type} (ctx : ResolutionContext J P)
    (item : ModuleItem J) (hout : item.isOutput = true) (hin : item.isInput = false) :
    isAssignableChecker ctx item
      = (ctx.ptypes.reverse.find? (fun jp => ctx.isAssignable item.javaType jp.1)).map Prod.snd
    ∧ canConvertChecker ctx item
      = (ctx.ptypes.reverse.find? (fun jp => ctx.canConvert item.javaType jp.1)).map Prod.snd := by
  constructor
  · unfold isAssignableChecker _checkerUsingFunc
    simp [hin, hout, firstMatch_eq_find]
  · unfold canConvertChecker _checkerUsingFunc
    simp [hin, hout, firstMatch_eq_find]

/-- C8, witness: on a concrete pure-output item of declared type `2` over a
two-pair table, both checkers return the Python type `20` of the reversed
table's first passing pair. -/
theorem C8_witness :
    isAssignableChecker c8ctx c8item = some 20
    ∧ canConvertChecker c8ctx c8item = some 20 := by
  have h := C8_output_reverse_scan c8ctx c8item rfl rfl
  rw [h.1, h.2]
  exact ⟨rfl, rfl⟩

/-! ## Claim C2 -/

/-- C2, counterexample: a usable unit (non-empty menu path) with one input of
an unresolvable type does NOT get silently excluded —
`napari_experimental_provide_function` propagates the `ValueError` raised by
`_ptype` inside `_functionify`'s unguarded `type_hints` comprehension. -/
theorem C2_counterexample :
    _usable c2info = true
    ∧ napari_experimental_provide_function c2ctx [c2info]
      = Except.error "Unsupported Java type" := by
  exact ⟨rfl, rfl⟩

/-- C2, amended: an invocable unit whose declared types defeat the checkers
is not silently excluded. (1) A usable unit with an unmatchable input type
makes `napari_experimental_provide_function` raise the `ValueError` from
`_functionify`'s unguarded `type_hints` construction; (2) so does a usable
unit whose single output type is unmatchable (the unguarded `return` hint);
(3) when the provider does return, it returns exactly one wrapper per usable
module — units are excluded only by the menu-path usability filter, never by
resolution-time unsupportedness. -/
theorem C2_unsupported_propagates {J P : Type} (ctx : FunctionContext J P)
    (modules : List (ModuleInfo J)) :
    (∀ info ∈ modules, _usable info = true →
      (∃ i ∈ info.inputs, (_ptype ctx i.2).isOk = false) →
      (napari_experimental_provide_function ctx modules).isOk = false)
    ∧ (∀ info ∈ modules, _usable info = true →
      ∀ o, info.outputs = [o] → (_ptype ctx o.2).isOk = false →
      (napari_experimental_provide_function ctx modules).isOk = false)
    ∧ (∀ fns, napari_experimental_provide_function ctx modules = Except.ok fns →
      fns.length = (modules.filter (fun info => _usable info)).length) := by
  refine ⟨?_, ?_, ?_⟩
  · intro info hmem hu hbad
    exact provide_function_error_of_mem ctx modules info hmem hu
      (functionify_fails_of_bad_input ctx info hbad)
  · intro info hmem hu o ho hbad
    exact provide_function_error_of_mem ctx modules info hmem hu
      (functionify_fails_of_bad_single_output ctx info o ho hbad)
  · intro fns hok
    simp only [napari_experimental_provide_function] at hok
    cases hall : exceptMapList (_functionify ctx)
        (modules.filter (fun info => _usable info)) with
    | error e => rw [hall] at hok; simp at hok
    | ok fns0 =>
      rw [hall] at hok
      simp at hok
      rw [← hok, sortByName_length]
      exact exceptMapList_ok_length (_functionify ctx) _ fns0 hall

/-- C2, witness: the three amended behaviors at concrete units — an
unresolvable input raises, an unresolvable single output raises, and a
successful provider call returns one wrapper per usable module. -/
theorem C2_witness :
    (napari_experimental_provide_function c2ctx [c2info]).isOk = false
    ∧ (napari_experimental_provide_function c2octx [c2oinfo]).isOk = false
    ∧ ([c2okfn]).length
      = ([c2okinfo, c2menuless].filter (fun info => _usable info)).length := by
  refine ⟨?_, ?_, ?_⟩
  · exact (C2_unsupported_propagates c2ctx [c2info]).1 c2info
      (List.mem_singleton.mpr rfl) rfl ⟨("x", 0), List.mem_singleton.mpr rfl, rfl⟩
  · exact (C2_unsupported_propagates c2octx [c2oinfo]).2.1 c2oinfo
      (List.mem_singleton.mpr rfl) rfl ("out", 1) rfl rfl
  · exact (C2_unsupported_propagates c2octx [c2okinfo, c2menuless]).2.2 [c2okfn] (by rfl)

/-! ## Claim C6 -/

/-- C6: invocation of a synthesized callable returns the bare single output
value when the executed unit's marshalled output map contains exactly one
entry, and the full name-to-value mapping when it contains zero or more than
one entry. -/
theorem C6_single_vs_mapping {A B : Type} (execute : List (String × A) → List (String × A))
    (to_java : B → A) (from_java : A → B) (kwargs : List (String × B)) :
    (∀ k v, marshalledOutputs execute to_java from_java kwargs = [(k, v)] →
      run_module execute to_java from_java kwargs = RunResult.single v)
    ∧ ((marshalledOutputs execute to_java from_java kwargs).length ≠ 1 →
      run_module execute to_java from_java kwargs
        = RunResult.mapping (marshalledOutputs execute to_java from_java kwargs)) := by
  constructor
  · intro k v h
    unfold run_module
    rw [h]
  · intro h
    unfold run_module
    cases hm : marshalledOutputs execute to_java from_java kwargs with
    | nil => rfl
    | cons kv rest =>
      cases rest with
      | nil => exact absurd (by rw [hm]; rfl) h
      | cons kv2 rest2 => rfl

/-- C6, witness: a one-output execution returns the bare value `5`; a
two-output execution returns the full `min`/`max` mapping. -/
theorem C6_witness :
    run_module c6exec1 (fun v => v) (fun v => v) c6kwargs = RunResult.single 5
    ∧ run_module c6exec2 (fun v => v) (fun v => v) c6kwargs
      = RunResult.mapping [("min", 1), ("max", 9)] := by
  constructor
  · exact (C6_single_vs_mapping c6exec1 (fun v => v) (fun v => v) c6kwargs).1 "sum" 5 rfl
  · exact (C6_single_vs_mapping c6exec2 (fun v => v) (fun v => v) c6kwargs).2 (by decide)

/-! ## Claim C7 -/

/-- C7, counterexample: for a unit with zero outputs, `_return_type`
synthesizes the annotation `None`, not an aggregate mapping type as the claim
states. -/
theorem C7_counterexample :
    _return_type c7ctx c7info0 = Except.ok ReturnAnn.noneType
    ∧ (ReturnAnn.noneType : ReturnAnn Nat) ≠ ReturnAnn.dictType := by
  exact ⟨rfl, by decide⟩

/-- C7, amended: the synthesized return annotation is the resolved external
type of the single output when there is exactly one output, the aggregate
mapping type (`dict`) when there are two or more outputs, and `None` when
there are zero outputs. -/
theorem C7_return_kind {J P : Type} (ctx : FunctionContext J P) (info : ModuleInfo J) :
    (info.outputs = [] → _return_type ctx info = Except.ok ReturnAnn.noneType)
    ∧ (∀ o, info.outputs = [o] →
        _return_type ctx info = (_ptype ctx o.2).map ReturnAnn.single)
    ∧ (2 ≤ info.outputs.length →
        _return_type ctx info = Except.ok ReturnAnn.dictType) := by
  refine ⟨?_, ?_, ?_⟩
  · intro h
    unfold _return_type
    rw [h]
    rfl
  · intro o h
    unfold _return_type
    rw [h]
    rfl
  · intro h
    unfold _return_type
    cases houts : info.outputs with
    | nil => exact absurd h (by rw [houts]; simp)
    | cons a rest =>
      cases rest with
      | nil => exact absurd h (by rw [houts]; simp)
      | cons b rest2 => rfl

/-- C7, witness: the three branches of the amended claim at concrete units
with zero, one and two outputs. -/
theorem C7_witness :
    _return_type c7ctx c7info0 = Except.ok ReturnAnn.noneType
    ∧ _return_type c7ctx c7info1 = Except.ok (ReturnAnn.single 42)
    ∧ _return_type c7ctx c7info2 = Except.ok ReturnAnn.dictType := by
  refine ⟨(C7_return_kind c7ctx c7info0).1 rfl, ?_,
    (C7_return_kind c7ctx c7info2).2.2 (by decide)⟩
  have h := (C7_return_kind c7ctx c7info1).2.1 ("out", 0) rfl
  rw [h]
  rfl

/-! ## Claim C3 -/

/-- C3, counterexample: on the four points `(0,0), (1,2), (0,10), (10,10)`
the min corner `(0,0)` is strictly nearest the origin and the max corner
`(10,10)` is strictly farthest from min, exactly as the claim computes them;
at least one of the two non-min/non-max points — namely `(0,10)` — differs
from min by exactly zero in a coordinate axis, so the claim classifies the
shape as axis-aligned and demands a box, yet the code returns a polygon: it
consults only the FIRST non-min/non-max point `(1,2)`, which has no zero
difference. -/
theorem C3_counterexample :
    _rectangle_data_to_mask c3pts = Except.ok (RectResult.polygon (Polyshape.mk c3pts))
    ∧ rectMin c3pts = (0, 0)
    ∧ rectMax c3pts = (10, 10)
    ∧ (∀ p ∈ c3pts, p ≠ (0, 0) → dist2 (0, 0) (0, 0) < dist2 (0, 0) p)
    ∧ (∀ p ∈ c3pts, p ≠ (10, 10) → dist2 (0, 0) p < dist2 (0, 0) (10, 10))
    ∧ claim_is_axis_aligned (0, 0) (10, 10) c3pts = true := by
  have hmin : rectMin c3pts = (0, 0) := by
    norm_num [c3pts, rectMin, selectMinBy, dist2, norm2, ptSub]
  have hmax : rectMax c3pts = (10, 10) := by
    norm_num [c3pts, rectMax, rectMin, selectMinBy, selectMaxBy, dist2, norm2, ptSub]
  have hal : _is_axis_aligned (rectMin c3pts) (rectMax c3pts) c3pts = some false := by
    rw [hmin, hmax]
    norm_num [c3pts, _is_axis_aligned, otherPred, List.find?, ptSub, Prod.mk.injEq]
  refine ⟨rect_eval_polygon c3pts (by simp [c3pts]) hal, hmin, hmax, ?_, ?_, ?_⟩
  · intro p hp
    fin_cases hp <;> norm_num [dist2, norm2, ptSub, Prod.mk.injEq]
  · intro p hp
    fin_cases hp <;> norm_num [dist2, norm2, ptSub, Prod.mk.injEq]
  · norm_num [claim_is_axis_aligned, c3pts, otherPred, ptSub, List.any, Prod.mk.injEq]

/-- C3, amended: the B→A rectangle codec computes min as a point nearest the
origin and max as a point farthest from min (first occurrence winning ties),
classifies the shape as axis-aligned iff the FIRST point differing from both
min and max (in data order) differs from min by exactly zero in some
coordinate axis, and returns a box over the min/max pair when axis-aligned and
a polygon over all vertices otherwise. -/
theorem C3_rectangle_classification (points : List Pt) (hne : points ≠ []) :
    (rectMin points ∈ points ∧ ∀ p ∈ points, dist2 (0, 0) (rectMin points) ≤ dist2 (0, 0) p)
    ∧ (rectMax points ∈ points ∧
        ∀ p ∈ points, dist2 (rectMin points) p ≤ dist2 (rectMin points) (rectMax points))
    ∧ (∀ other, points.find? (otherPred (rectMin points) (rectMax points)) = some other →
        _rectangle_data_to_mask points =
          if (ptSub other (rectMin points)).1 = 0 ∨ (ptSub other (rectMin points)).2 = 0
          then Except.ok (RectResult.box (rectMin points) (rectMax points))
          else Except.ok (RectResult.polygon (Polyshape.mk points))) := by
  refine ⟨⟨rectMin_mem points hne, rectMin_nearest points⟩,
    ⟨rectMax_mem points hne, rectMax_farthest points⟩, ?_⟩
  intro other hfind
  have hal : _is_axis_aligned (rectMin points) (rectMax points) points
      = some (decide ((ptSub other (rectMin points)).1 = 0)
          || decide ((ptSub other (rectMin points)).2 = 0)) := by
    unfold _is_axis_aligned
    rw [hfind]
  by_cases h0 : (ptSub other (rectMin points)).1 = 0
      ∨ (ptSub other (rectMin points)).2 = 0
  · rw [if_pos h0]
    refine rect_eval_box points hne ?_
    rw [hal]
    rcases h0 with h | h
    · simp [h]
    · simp [h]
  · rw [if_neg h0]
    push_neg at h0
    refine rect_eval_polygon points hne ?_
    rw [hal]
    simp [h0.1, h0.2]

/-- C3, witness: the amended claim evaluated on a concrete quadrilateral whose
first non-min/non-max point has no zero coordinate difference: the codec
returns the polygon fallback. -/
theorem C3_witness :
    _rectangle_data_to_mask c3wpts
      = Except.ok (RectResult.polygon (Polyshape.mk c3wpts)) := by
  have hmin : rectMin c3wpts = (0, 0) := by
    norm_num [c3wpts, rectMin, selectMinBy, dist2, norm2, ptSub]
  have hmax : rectMax c3wpts = (4, 3) := by
    norm_num [c3wpts, rectMax, rectMin, selectMinBy, selectMaxBy, dist2, norm2, ptSub]
  have hfind : c3wpts.find? (otherPred (rectMin c3wpts) (rectMax c3wpts)) = some (3, 1) := by
    rw [hmin, hmax]
    norm_num [c3wpts, otherPred, List.find?, Prod.mk.injEq]
  have h := (C3_rectangle_classification c3wpts (by simp [c3wpts])).2.2 (3, 1) hfind
  rw [hmin] at h
  rw [if_neg (by norm_num [ptSub])] at h
  exact h

/-! ## Claim C9 -/

/-- C9: the B→A rectangle conversion succeeds exactly when some input point
differs from both the computed min and the computed max corner; when every
point equals one of the two (e.g. four identical points) the axis-alignment
test finds no other point and the conversion fails with an uncaught
`TypeError` instead of returning a shape. -/
theorem C9_rect_totality :
    (∀ points : List Pt, points ≠ [] →
      ((_rectangle_data_to_mask points).isOk = false ↔
        ∀ p ∈ points, p = rectMin points ∨ p = rectMax points))
    ∧ _rectangle_data_to_mask c9pts = Except.error "TypeError" := by
  constructor
  · intro points hne
    have key : (_rectangle_data_to_mask points).isOk = false ↔
        points.find? (otherPred (rectMin points) (rectMax points)) = none := by
      cases hf : points.find? (otherPred (rectMin points) (rectMax points)) with
      | none =>
        have heval := rect_eval_error points hne (by unfold _is_axis_aligned; rw [hf])
        simp [heval, Except.isOk, Except.toBool]
      | some other =>
        have hal : _is_axis_aligned (rectMin points) (rectMax points) points
            = some (decide ((ptSub other (rectMin points)).1 = 0)
                || decide ((ptSub other (rectMin points)).2 = 0)) := by
          unfold _is_axis_aligned
          rw [hf]
        cases hb : (decide ((ptSub other (rectMin points)).1 = 0)
            || decide ((ptSub other (rectMin points)).2 = 0)) with
        | false =>
          have heval := rect_eval_polygon points hne (by rw [hal, hb])
          simp [heval, Except.isOk, Except.toBool]
        | true =>
          have heval := rect_eval_box points hne (by rw [hal, hb])
          simp [heval, Except.isOk, Except.toBool]
    rw [key, List.find?_eq_none]
    constructor
    · intro h p hp
      have hnp := h p hp
      by_cases h1 : p = rectMin points
      · exact Or.inl h1
      · right
        by_cases h2 : p = rectMax points
        · exact h2
        · exact absurd (by simp [otherPred, h1, h2]) hnp
    · intro h p hp
      rcases h p hp with h1 | h1
      · simp [otherPred, h1]
      · simp [otherPred, h1]
  · refine rect_eval_error c9pts (by simp [c9pts]) ?_
    have hmin : rectMin c9pts = (2, 2) := by
      norm_num [c9pts, rectMin, selectMinBy, dist2, norm2, ptSub]
    have hmax : rectMax c9pts = (2, 2) := by
      norm_num [c9pts, rectMax, rectMin, selectMinBy, selectMaxBy, dist2, norm2, ptSub]
    rw [hmin, hmax]
    norm_num [c9pts, _is_axis_aligned, otherPred, List.find?]

/-- C9, witness: the totality criterion applied to four identical points —
every point equals the computed min corner, so the conversion fails. -/
theorem C9_witness : (_rectangle_data_to_mask c9pts).isOk = false := by
  have hmin : rectMin c9pts = (2, 2) := by
    norm_num [c9pts, rectMin, selectMinBy, dist2, norm2, ptSub]
  refine (C9_rect_totality.1 c9pts (by simp [c9pts])).mpr ?_
  intro p hp
  fin_cases hp <;> exact Or.inl hmin.symm

/-! ## Claim C4 -/

/-- C4, counterexample: the ellipsoid codec does not round-trip. Starting from
the mask with center `(0,0)` and radii `(2,2)`, writing it to vertex data
`[(0,0), (2,2)]` and reading it back re-derives the center as the mean of the
two rows, yielding center `(1,1)` and radii `(1,1)` — not the original mask.
All values are small integers, for which the IEEE double arithmetic performed
by the code is exact. -/
theorem C4_counterexample :
    _ellipse_data_to_mask (_ellipse_mask_to_data (Ellipsoid.mk (0, 0) (2, 2)))
      = some (Ellipsoid.mk (1, 1) (1, 1))
    ∧ Ellipsoid.mk (1, 1) (1, 1) ≠ Ellipsoid.mk (0, 0) (2, 2) := by
  constructor
  · norm_num [_ellipse_mask_to_data, _ellipse_data_to_mask, ptMean, ptAbs, ptSub,
      Ellipsoid.mk.injEq, Prod.mk.injEq]
  · norm_num [Ellipsoid.mk.injEq, Prod.mk.injEq]

/-- C4, amended: converting vertex data in one direction and back is exact
(bit-identical) for line, polyline (path), polygon and point-collection
shapes, in both directions; the ellipsoid codec is the one non-rectangle kind
whose round trip is NOT exact. -/
theorem C4_exact_roundtrips :
    (∀ p q : Pt, (_line_data_to_mask [p, q]).map _line_mask_to_data = some [p, q])
    ∧ (∀ mask : LineMask, _line_data_to_mask (_line_mask_to_data mask) = some mask)
    ∧ (∀ pts : List Pt, _path_mask_to_data (_path_data_to_mask pts) = pts)
    ∧ (∀ mask : Polyshape, _path_data_to_mask (_path_mask_to_data mask) = mask)
    ∧ (∀ pts : List Pt, _polygon_mask_to_data (_polygon_data_to_mask pts) = pts)
    ∧ (∀ mask : Polyshape, _polygon_data_to_mask (_polygon_mask_to_data mask) = mask)
    ∧ (∀ pts : List Pt, _realpointcollection_to_points (_points_to_realpointcollection pts) = pts)
    ∧ (∀ c : RealPointCollection, _points_to_realpointcollection (_realpointcollection_to_points c) = c) := by
  exact ⟨fun p q => rfl, fun mask => rfl, fun pts => rfl, fun mask => rfl,
    fun pts => rfl, fun mask => rfl, fun pts => rfl, fun c => rfl⟩


/-- C4, witness: the exact round trips evaluated at concrete vertex data. -/
theorem C4_witness :
    (_line_data_to_mask [((1 : ℚ), (2 : ℚ)), (3, 4)]).map _line_mask_to_data
      = some [((1 : ℚ), (2 : ℚ)), (3, 4)]
    ∧ _path_mask_to_data (_path_data_to_mask [((5 : ℚ), (6 : ℚ))]) = [((5 : ℚ), (6 : ℚ))]
    ∧ _realpointcollection_to_points (_points_to_realpointcollection [((7 : ℚ), (8 : ℚ))])
      = [((7 : ℚ), (8 : ℚ))] :=
  ⟨C4_exact_roundtrips.1 (1, 2) (3, 4), C4_exact_roundtrips.2.2.1 [(5, 6)],
    C4_exact_roundtrips.2.2.2.2.2.2.1 [(7, 8)]⟩

/-! ## Claim C5 -/

/-- C5: for a four-point rectangle input the code classifies as not
axis-aligned, the B→A conversion produces the polygon fallback (not a box)
over all four vertices, and converting that polygon back to layer data yields
the original four vertices in the same order — lossy in the kind tag,
lossless in the vertex geometry. -/
theorem C5_nonaligned_roundtrip (points : List Pt) (hne : points ≠ [])
    (hcls : _is_axis_aligned (rectMin points) (rectMax points) points = some false) :
    _rectangle_data_to_mask points
      = Except.ok (RectResult.polygon (_polygon_data_to_mask points))
    ∧ _polygon_mask_to_data (_polygon_data_to_mask points) = points := by
  exact ⟨rect_eval_polygon points hne hcls, rfl⟩

/-- C5, witness: the corners of a concrete rotated rectangle convert to a
polygon whose layer data is the original vertex list. -/
theorem C5_witness :
    _rectangle_data_to_mask c5pts = Except.ok (RectResult.polygon (Polyshape.mk c5pts))
    ∧ _polygon_mask_to_data (Polyshape.mk c5pts) = c5pts := by
  have hmin : rectMin c5pts = (1, 0) := by
    norm_num [c5pts, rectMin, selectMinBy, dist2, norm2, ptSub]
  have hmax : rectMax c5pts = (2, 3) := by
    norm_num [c5pts, rectMax, rectMin, selectMinBy, selectMaxBy, dist2, norm2, ptSub]
  have hcls : _is_axis_aligned (rectMin c5pts) (rectMax c5pts) c5pts = some false := by
    rw [hmin, hmax]
    norm_num [c5pts, _is_axis_aligned, otherPred, List.find?, ptSub, Prod.mk.injEq]
  exact C5_nonaligned_roundtrip c5pts (by simp [c5pts]) hcls

/-! ## Claim C10 -/

/-- C10, counterexample: with a successful gateway launch but a failing
version validation, the single `init_ij` call raises (it is not successful),
yet it leaves the gateway assigned, so a subsequent `ij()` call returns the
instance instead of raising — contradicting "before any successful init_ij,
ij() raises". -/
theorem C10_counterexample :
    (init_ij c10envC none).result.isOk = false
    ∧ ij (init_ij c10envC none).state = Except.ok 7 := by
  exact ⟨rfl, rfl⟩

/-- C10, amended: once a gateway is stored, initialization is idempotent:
every `init_ij` call returns that same instance without re-running converter
installation, gateway launch or version validation, and every `ij()` call
returns it; while no gateway is stored, `ij()` raises. A successful `init_ij`
always stores the gateway it returns — but a gateway is also stored by an
`init_ij` call that fails only in version validation, so `ij()` can succeed
before any `init_ij` call has succeeded. -/
theorem C10_idempotent_init {G : Type} (env env2 : IJEnv G) (s : Option G) (g : G) :
    ((init_ij env s).result = Except.ok g → (init_ij env s).state = some g)
    ∧ init_ij env2 (some g)
      = InitOutcome.mk (Except.ok g) (some g) (InitTrace.mk false false false)
    ∧ ij (some g) = Except.ok g
    ∧ (ij (none : Option G)).isOk = false := by
  refine ⟨?_, rfl, rfl, rfl⟩
  rcases s with _ | g2
  · rcases env with ⟨ag, ir, vo⟩
    rcases ag with _ | g3
    · rcases ir with e | g4
      · intro h
        exact absurd h (by simp [init_ij])
      · cases vo with
        | false =>
          intro h
          exact absurd h (by simp [init_ij])
        | true =>
          intro h
          have : g4 = g := by simpa [init_ij] using h
          simp [init_ij, this]
    · cases vo with
      | false =>
        intro h
        exact absurd h (by simp [init_ij])
      | true =>
        intro h
        have : g3 = g := by simpa [init_ij] using h
        simp [init_ij, this]
  · intro h
    have : g2 = g := by simpa [init_ij] using h
    simp [init_ij, this]

/-- C10, witness: a fully successful initialization stores gateway `5`; the
next `init_ij` call returns it having run none of the three actions, and
`ij()` returns it. -/
theorem C10_witness :
    (init_ij c10envW none).state = some 5
    ∧ init_ij c10envW (init_ij c10envW none).state
      = InitOutcome.mk (Except.ok 5) (some 5) (InitTrace.mk false false false)
    ∧ ij (some (5 : Nat)) = Except.ok 5 := by
  have h := C10_idempotent_init c10envW c10envW (none : Option Nat) 5
  refine ⟨h.1 rfl, ?_, h.2.2.1⟩
  rw [h.1 rfl]
  exact h.2.1

end NapariImagej
